import Mathlib

/-!
Verification of the RealStack on-chain program (src/contracts/src).

The development is a shallow embedding of the three record families of the
program — asset records (asset_token.rs), governance proposals and votes
(governance.rs) and the platform token record (tokenomics.rs) — together
with the operations that mutate them.  Machine integers are embedded as
`Nat` (u64/u128/u8) and `Int` (i64); every checked operation of the source
is embedded as an explicit bound test against the corresponding type range.
Caller authorization expressed in the source as an Anchor account
constraint (for example the constraint that the signer equals the stored
authority in BurnAssetToken) is embedded as the first test of the
operation, since the runtime evaluates account constraints before the
instruction body runs.
-/

namespace RealStack

/-- Largest value of a Rust u64. -/
def u64Max : Nat := 2 ^ 64 - 1

/-- Largest value of a Rust i64. -/
def i64Max : Int := 2 ^ 63 - 1

/-- Smallest value of a Rust i64. -/
def i64Min : Int := -(2 ^ 63)

/-- u64::checked_add: the sum when it fits in a u64, otherwise none. -/
def checkedAddU64 (a b : Nat) : Option Nat :=
  if a + b ≤ u64Max then some (a + b) else none

/-- i64::checked_add: the sum when it fits in an i64, otherwise none. -/
def checkedAddI64 (a b : Int) : Option Int :=
  if i64Min ≤ a + b ∧ a + b ≤ i64Max then some (a + b) else none

/-- Account addresses / identities (Solana Pubkey), embedded abstractly. -/
abbrev Pubkey := Nat

/-- The error taxonomy of errors.rs (RealStackError). -/
inductive RealStackError where
  | Unauthorized
  | InvalidParameters
  | MathOverflow
  | MathUnderflow
  | AssetNotFound
  | AssetNotVerified
  | AssetAlreadyVerified
  | AssetNotTradable
  | AssetAlreadyTokenized
  | AssetBurned
  | AssetAlreadyBurned
  | InsufficientFunds
  | InvalidVotingPeriod
  | ProposalInactive
  | VotingPeriodEnded
  | VotingPeriodNotEnded
  | ProposalAlreadyExecuted
  | InvalidTokenMint
  | InvalidTokenAccount
  | InvalidValuation
  | CannotMintAdditional
  | InvalidDistributionAmount
  | DistributionTooFrequent
  | SharePriceTooLow
  | TotalSharesExceedsMaximum
  | InvalidAssetCategory
  | AssetNameTooLong
  | AssetDescriptionTooLong
  | LiquidityPoolExists
  | LiquidityPoolNotFound
deriving DecidableEq, Repr

/-- Income distribution frequency options (asset_token.rs). -/
inductive IncomeDistributionFrequency where
  | Monthly
  | Quarterly
  | SemiAnnually
  | Annually
  | Custom
deriving DecidableEq, Repr

/-- The AssetToken account of asset_token.rs.  u64 fields are `Nat`
(kept below 2^64 by the checked arithmetic of the operations), i64
timestamps are `Int`. -/
structure AssetToken where
  authority : Pubkey
  mint : Pubkey
  name : String
  symbol : String
  category : String
  description : String
  uri : String
  valuation : Nat
  total_shares : Nat
  initial_share_price : Nat
  current_share_price : Nat
  is_verified : Bool
  verifier : Option Pubkey
  verified_at : Int
  is_tradable : Bool
  created_at : Int
  updated_at : Int
  liquidity_pool : Option Pubkey
  income_distribution_frequency : IncomeDistributionFrequency
  last_income_distribution : Int
  total_income_distributed : Nat
  can_mint_additional : Bool
  is_burned : Bool
deriving DecidableEq, Repr

/-- create_asset_token (asset_token.rs): builds a fresh AssetToken record
owned by the calling authority. -/
def create_asset_token (caller mintKey : Pubkey) (now : Int)
    (name symbol category description uri : String)
    (valuation total_shares share_price : Nat) : AssetToken :=
  { authority := caller
    mint := mintKey
    name := name
    symbol := symbol
    category := category
    description := description
    uri := uri
    valuation := valuation
    total_shares := total_shares
    initial_share_price := share_price
    current_share_price := share_price
    is_verified := false
    verifier := none
    verified_at := 0
    is_tradable := false
    created_at := now
    updated_at := now
    liquidity_pool := none
    income_distribution_frequency := .Monthly
    last_income_distribution := 0
    total_income_distributed := 0
    can_mint_additional := false
    is_burned := false }

/-- update_asset_valuation (asset_token.rs): authority-gated overwrite of
valuation and current share price. -/
def update_asset_valuation (caller : Pubkey) (now : Int)
    (new_valuation new_share_price : Nat) (a : AssetToken) :
    Except RealStackError AssetToken :=
  if caller = a.authority then
    .ok { a with valuation := new_valuation,
                 current_share_price := new_share_price,
                 updated_at := now }
  else .error .Unauthorized

/-- verify_asset (asset_token.rs): records the verifier; no guard against
re-verification. -/
def verify_asset (verifierKey : Pubkey) (now : Int) (a : AssetToken) :
    Except RealStackError AssetToken :=
  .ok { a with is_verified := true,
               verifier := some verifierKey,
               verified_at := now,
               updated_at := now }

/-- toggle_tradability (asset_token.rs): authority-gated overwrite of the
is_tradable flag; the body contains no check of is_burned. -/
def toggle_tradability (caller : Pubkey) (now : Int) (flag : Bool)
    (a : AssetToken) : Except RealStackError AssetToken :=
  if caller = a.authority then
    .ok { a with is_tradable := flag, updated_at := now }
  else .error .Unauthorized

/-- burn_asset_token (asset_token.rs): authority-gated; fails with
AssetAlreadyBurned when is_burned already holds, otherwise sets
is_burned and clears is_tradable. -/
def burn_asset_token (caller : Pubkey) (now : Int) (a : AssetToken) :
    Except RealStackError AssetToken :=
  if caller = a.authority then
    if a.is_burned then .error .AssetAlreadyBurned
    else .ok { a with is_burned := true, is_tradable := false, updated_at := now }
  else .error .Unauthorized

/-- distribute_income (asset_token.rs), instruction-body semantics.  The
body writes last_income_distribution before the fallible checked_add, so
an error result carries the account state at the abort point (the error
component), exactly as the account buffer stands when the body returns
Err. -/
def distribute_income (caller : Pubkey) (now : Int) (amount : Nat)
    (a : AssetToken) : Except (RealStackError × AssetToken) AssetToken :=
  if caller = a.authority then
    if a.is_burned then .error (.AssetBurned, a)
    else
      let a1 := { a with last_income_distribution := now }
      match checkedAddU64 a1.total_income_distributed amount with
      | none => .error (.MathOverflow, a1)
      | some t => .ok { a1 with total_income_distributed := t, updated_at := now }
  else .error (.Unauthorized, a)

/-- Modelled from the spec: the execution host applies each instruction
transactionally (spec sections 5 and 9: the host guarantees all-or-nothing
application, reverting every account mutation when the instruction returns
an error).  That host-side commit/revert step is not code under
src/contracts; this wrapper models it for distribute_income: the committed
record plus the surfaced error, the original record being kept verbatim on
failure. -/
def distribute_income_commit (caller : Pubkey) (now : Int) (amount : Nat)
    (a : AssetToken) : AssetToken × Option RealStackError :=
  match distribute_income caller now amount a with
  | .ok a2 => (a2, none)
  | .error (e, _) => (a, some e)

/-- distribute_income as observed through the host: the committed record on
success, the error alone on failure. -/
def distribute_income_tx (caller : Pubkey) (now : Int) (amount : Nat)
    (a : AssetToken) : Except RealStackError AssetToken :=
  match distribute_income caller now amount a with
  | .ok a2 => .ok a2
  | .error (e, _) => .error e

/-- Types of governance proposals (governance.rs). -/
inductive ProposalType where
  | Text
  | PlatformParameters
  | AddAssetCategory
  | UpdateFees
  | ProgramUpgrade
  | TreasuryTransfer
  | AssetAction
  | CommunityFunding
deriving DecidableEq, Repr

/-- The Proposal account of governance.rs. -/
structure Proposal where
  title : String
  description : String
  proposer : Pubkey
  is_active : Bool
  creation_timestamp : Int
  voting_ends_at : Int
  yes_votes : Nat
  no_votes : Nat
  executed : Bool
  proposal_type : ProposalType
  target_accounts : List Pubkey
  execution_data : List Nat
  min_voting_period : Int
  quorum_votes : Nat
  approval_threshold_percentage : Nat
  executed_at : Int
  executor : Option Pubkey
deriving DecidableEq, Repr

/-- The VoteRecord account of governance.rs. -/
structure VoteRecord where
  proposal : Pubkey
  voter : Pubkey
  is_yes_vote : Bool
  vote_weight : Nat
  timestamp : Int
deriving DecidableEq, Repr

/-- The GovernanceConfig account of governance.rs. -/
structure GovernanceConfig where
  authority : Pubkey
  min_voting_period : Int
  max_voting_period : Int
  min_quorum_votes : Nat
  approval_threshold : Nat
  min_proposal_balance : Nat
  min_vote_balance : Nat
  governance_active : Bool
deriving DecidableEq, Repr

/-- create_proposal (governance.rs): validates title, description and the
voting window against the config, then initializes the proposal record,
copying quorum and threshold from the config. -/
def create_proposal (proposer : Pubkey) (now : Int)
    (title description : String) (voting_ends_at : Int)
    (cfg : GovernanceConfig) : Except RealStackError Proposal :=
  if title = "" then .error .InvalidParameters
  else if description = "" then .error .InvalidParameters
  else
    match checkedAddI64 now cfg.min_voting_period with
    | none => .error .MathOverflow
    | some min_end_time =>
      match checkedAddI64 now cfg.max_voting_period with
      | none => .error .MathOverflow
      | some max_end_time =>
        if voting_ends_at < min_end_time then .error .InvalidVotingPeriod
        else if max_end_time < voting_ends_at then .error .InvalidVotingPeriod
        else .ok
          { title := title
            description := description
            proposer := proposer
            is_active := true
            creation_timestamp := now
            voting_ends_at := voting_ends_at
            yes_votes := 0
            no_votes := 0
            executed := false
            proposal_type := .Text
            target_accounts := []
            execution_data := []
            min_voting_period := cfg.min_voting_period
            quorum_votes := cfg.min_quorum_votes
            approval_threshold_percentage := cfg.approval_threshold
            executed_at := 0
            executor := none }

/-- A freshly allocated (zeroed) VoteRecord account, as handed to the
vote_on_proposal body by the runtime after the init constraint. -/
def freshVoteRecord : VoteRecord :=
  { proposal := 0, voter := 0, is_yes_vote := false, vote_weight := 0, timestamp := 0 }

/-- vote_on_proposal (governance.rs), instruction-body semantics on the
proposal and the freshly created vote record.  The body fills the vote
record before the fallible tally checked_add, so an error result carries
both accounts at the abort point. -/
def vote_on_proposal_body (proposalKey voter : Pubkey) (now : Int)
    (vote_yes : Bool) (vote_weight : Nat) (cfg : GovernanceConfig)
    (p : Proposal) (vr : VoteRecord) :
    Except (RealStackError × Proposal × VoteRecord) (Proposal × VoteRecord) :=
  if p.is_active = false then .error (.ProposalInactive, p, vr)
  else if p.voting_ends_at ≤ now then .error (.VotingPeriodEnded, p, vr)
  else if vote_weight < cfg.min_vote_balance then .error (.InvalidParameters, p, vr)
  else
    let vr1 : VoteRecord :=
      { proposal := proposalKey, voter := voter, is_yes_vote := vote_yes,
        vote_weight := vote_weight, timestamp := now }
    if vote_yes then
      match checkedAddU64 p.yes_votes vote_weight with
      | none => .error (.MathOverflow, p, vr1)
      | some y => .ok ({ p with yes_votes := y }, vr1)
    else
      match checkedAddU64 p.no_votes vote_weight with
      | none => .error (.MathOverflow, p, vr1)
      | some n => .ok ({ p with no_votes := n }, vr1)

/-- Association-list lookup over the vote-record store, keyed by the
derived (proposal, voter) address. -/
def lookupVote (k : Pubkey × Pubkey) :
    List ((Pubkey × Pubkey) × VoteRecord) → Option VoteRecord
  | [] => none
  | (k2, v) :: rest => if k2 = k then some v else lookupVote k rest

/-- Governance storage touched by one proposal: the proposal account (at
address proposal_key) and the vote-record accounts, addressed by the key
the VoteOnProposal context derives from the seeds
[vote_record, proposal.key(), voter.key()] — embedded as the
(proposal, voter) pair itself. -/
structure GovState where
  proposal_key : Pubkey
  proposal : Proposal
  votes : List ((Pubkey × Pubkey) × VoteRecord)
deriving DecidableEq, Repr

/-- Errors of a governance transaction: either the runtime refusing the
init constraint of VoteOnProposal because the derived vote-record address
is already occupied, or a program error. -/
inductive TxError where
  | accountInUse
  | prog (e : RealStackError)
deriving DecidableEq, Repr

/-- Modelled from the spec: the runtime processing of the VoteOnProposal
context (governance.rs, the init account with seeds
[vote_record, proposal.key(), voter.key()]) — account creation at the
derived address fails when the address is already occupied, and the host
applies the instruction all-or-nothing (spec sections 5 and 9).  The
account-initialization machinery itself is not code under src/contracts;
this wrapper models it around the vote_on_proposal body: a second vote for
the same (proposal, voter) pair is refused before the body runs, and a
body error commits nothing. -/
def vote_on_proposal (voter : Pubkey) (now : Int) (vote_yes : Bool)
    (vote_weight : Nat) (cfg : GovernanceConfig) (s : GovState) :
    Except TxError GovState :=
  if (lookupVote (s.proposal_key, voter) s.votes).isSome then
    .error .accountInUse
  else
    match vote_on_proposal_body s.proposal_key voter now vote_yes vote_weight
        cfg s.proposal freshVoteRecord with
    | .error (e, _, _) => .error (.prog e)
    | .ok (p2, vr) =>
        .ok { s with proposal := p2,
                     votes := ((s.proposal_key, voter), vr) :: s.votes }

/-- vote_on_proposal observed as committed state plus surfaced error: the
original storage is kept verbatim on failure. -/
def vote_on_proposal_commit (voter : Pubkey) (now : Int) (vote_yes : Bool)
    (vote_weight : Nat) (cfg : GovernanceConfig) (s : GovState) :
    GovState × Option TxError :=
  match vote_on_proposal voter now vote_yes vote_weight cfg s with
  | .ok s2 => (s2, none)
  | .error e => (s, some e)

/-- execute_proposal (governance.rs): guards in source order (is_active,
voting window, executed), checked tally total, quorum test, widened
percentage, then the unconditional state update.  The returned Bool is the
approved outcome the body computes (it drives only logging and the
type-specific dispatch, whose Text case is a no-op). -/
def execute_proposal (executorKey : Pubkey) (now : Int) (p : Proposal) :
    Except RealStackError (Proposal × Bool) :=
  if p.is_active = false then .error .ProposalInactive
  else if now < p.voting_ends_at then .error .VotingPeriodNotEnded
  else if p.executed then .error .ProposalAlreadyExecuted
  else
    match checkedAddU64 p.yes_votes p.no_votes with
    | none => .error .MathOverflow
    | some total_votes =>
      if total_votes < p.quorum_votes then .error .InvalidParameters
      else
        let yes_percentage : Nat :=
          if 0 < total_votes then p.yes_votes * 100 / total_votes else 0
        let approved : Bool := decide (p.approval_threshold_percentage ≤ yes_percentage)
        .ok ({ p with executed := true, is_active := false,
                      executed_at := now, executor := some executorKey },
             approved)

/-- Fee configuration of the REAL token (tokenomics.rs). -/
structure FeeConfig where
  transaction_fee_bps : Nat
  fee_recipient : Pubkey
  fees_enabled : Bool
deriving DecidableEq, Repr

/-- Token distribution details of the REAL token (tokenomics.rs). -/
structure TokenDistribution where
  community_allocation : Nat
  asset_reserve_allocation : Nat
  development_allocation : Nat
  liquidity_allocation : Nat
  team_allocation : Nat
deriving DecidableEq, Repr

/-- The RealToken account of tokenomics.rs. -/
structure RealToken where
  name : String
  symbol : String
  uri : String
  total_supply : Nat
  authority : Pubkey
  is_initialized : Bool
  last_update_timestamp : Int
  mint : Pubkey
  transfers_paused : Bool
  pending_authority : Option Pubkey
  fee_config : FeeConfig
  distribution : TokenDistribution
deriving DecidableEq, Repr

/-- calculate_percentage (tokenomics.rs): value and percentage are widened
to u128, multiplied, divided by 100, and the quotient is cast back to u64
(a truncating `as` cast, embedded as reduction mod 2^64; the u128
intermediate never wraps because value < 2^64 and percentage < 2^8, so the
product is below 2^72 < 2^128). -/
def calculate_percentage (value : Nat) (percentage : Nat) : Nat :=
  value * percentage / 100 % 2 ^ 64

/-- initialize (tokenomics.rs, token_operations): validates name, symbol
and total_supply, computes the five allocation buckets with
calculate_percentage, and builds the RealToken record with the default
25 bps fee configuration. -/
def initialize_real_token (caller mintKey : Pubkey) (now : Int)
    (name symbol uri : String) (total_supply : Nat) :
    Except RealStackError RealToken :=
  if name = "" then .error .InvalidParameters
  else if symbol = "" then .error .InvalidParameters
  else if total_supply = 0 then .error .InvalidParameters
  else .ok
    { name := name
      symbol := symbol
      uri := uri
      total_supply := total_supply
      authority := caller
      is_initialized := true
      last_update_timestamp := now
      mint := mintKey
      transfers_paused := false
      pending_authority := none
      fee_config :=
        { transaction_fee_bps := 25, fee_recipient := caller, fees_enabled := true }
      distribution :=
        { community_allocation := calculate_percentage total_supply 40
          asset_reserve_allocation := calculate_percentage total_supply 25
          development_allocation := calculate_percentage total_supply 20
          liquidity_allocation := calculate_percentage total_supply 10
          team_allocation := calculate_percentage total_supply 5 } }

/-- transfer_authority (tokenomics.rs): gated on the current authority
(TransferAuthority constraint); records the nominee in pending_authority,
leaving the authority field itself untouched. -/
def transfer_authority (caller new_authority : Pubkey) (now : Int)
    (rt : RealToken) : Except RealStackError RealToken :=
  if rt.authority = caller then
    .ok { rt with pending_authority := some new_authority,
                  last_update_timestamp := now }
  else .error .Unauthorized

/-- accept_authority (tokenomics.rs): gated on
pending_authority == Some(caller) (AcceptAuthority constraint); installs
the caller as authority and clears pending_authority. -/
def accept_authority (caller : Pubkey) (now : Int) (rt : RealToken) :
    Except RealStackError RealToken :=
  if rt.pending_authority = some caller then
    .ok { rt with authority := caller,
                  pending_authority := none,
                  last_update_timestamp := now }
  else .error .Unauthorized

/-- update_fee_config (tokenomics.rs): authority-gated; requires
transaction_fee_bps at most 1000, then replaces fee_config wholesale. -/
def update_fee_config (caller : Pubkey) (now : Int)
    (transaction_fee_bps : Nat) (fee_recipient : Pubkey)
    (fees_enabled : Bool) (rt : RealToken) : Except RealStackError RealToken :=
  if rt.authority = caller then
    if 1000 < transaction_fee_bps then .error .InvalidParameters
    else
      .ok { rt with
              fee_config :=
                { transaction_fee_bps := transaction_fee_bps
                  fee_recipient := fee_recipient
                  fees_enabled := fees_enabled }
              last_update_timestamp := now }
  else .error .Unauthorized

/-- set_transfer_pause (tokenomics.rs): authority-gated overwrite of
transfers_paused. -/
def set_transfer_pause (caller : Pubkey) (now : Int) (paused : Bool)
    (rt : RealToken) : Except RealStackError RealToken :=
  if rt.authority = caller then
    .ok { rt with transfers_paused := paused, last_update_timestamp := now }
  else .error .Unauthorized

/-- The mutating operations the program offers on an existing AssetToken
record (lib.rs dispatcher, asset_token.rs bodies), as one syntactic type,
to quantify over "any subsequent operation" on a record. -/
inductive AssetOp where
  | updateValuation (caller : Pubkey) (now : Int) (v sp : Nat)
  | verify (verifierKey : Pubkey) (now : Int)
  | toggle (caller : Pubkey) (now : Int) (flag : Bool)
  | burn (caller : Pubkey) (now : Int)
  | distribute (caller : Pubkey) (now : Int) (amount : Nat)
deriving DecidableEq, Repr

/-- Dispatch of an AssetOp to the corresponding operation. -/
def applyAssetOp : AssetOp → AssetToken → Except RealStackError AssetToken
  | .updateValuation c n v sp, a => update_asset_valuation c n v sp a
  | .verify vk n, a => verify_asset vk n a
  | .toggle c n f, a => toggle_tradability c n f a
  | .burn c n, a => burn_asset_token c n a
  | .distribute c n amt, a => distribute_income_tx c n amt a

/-- A sequence of distribute_income transactions applied through the host:
each failed call commits nothing and the sequence continues from the
unchanged record. -/
def runDistributions (a : AssetToken) : List (Pubkey × Int × Nat) → AssetToken
  | [] => a
  | (c, t, amt) :: rest =>
      runDistributions (distribute_income_commit c t amt a).1 rest

/-- The amounts of exactly those calls of a distribute_income sequence
that succeed, simulated from the given record. -/
def appliedAmounts (a : AssetToken) : List (Pubkey × Int × Nat) → List Nat
  | [] => []
  | (c, t, amt) :: rest =>
      match distribute_income_tx c t amt a with
      | .ok a2 => amt :: appliedAmounts a2 rest
      | .error _ => appliedAmounts a rest

/-- Total weight of the yes votes in a vote-record store. -/
def yesWeightSum : List ((Pubkey × Pubkey) × VoteRecord) → Nat
  | [] => 0
  | (_, v) :: rest => (if v.is_yes_vote then v.vote_weight else 0) + yesWeightSum rest

/-- Total weight of the no votes in a vote-record store. -/
def noWeightSum : List ((Pubkey × Pubkey) × VoteRecord) → Nat
  | [] => 0
  | (_, v) :: rest => (if v.is_yes_vote then 0 else v.vote_weight) + noWeightSum rest

/-- One committed governance transaction on the storage of a proposal:
either a successful vote_on_proposal or a successful execute_proposal
(execute touches only the proposal account). -/
inductive GovStep : GovState → GovState → Prop where
  | vote (voter : Pubkey) (now : Int) (b : Bool) (w : Nat)
      (cfg : GovernanceConfig) {s s2 : GovState}
      (h : vote_on_proposal voter now b w cfg s = .ok s2) : GovStep s s2
  | exec (executorKey : Pubkey) (now : Int) {s : GovState} {p2 : Proposal}
      {ap : Bool}
      (h : execute_proposal executorKey now s.proposal = .ok (p2, ap)) :
      GovStep s { s with proposal := p2 }

/-- Reachability of governance storage states by committed transactions. -/
def GovReachable (s0 s : GovState) : Prop := Relation.ReflTransGen GovStep s0 s

/-- The tally/uniqueness invariant of the storage of a proposal: the stored
tallies are the sums of the recorded vote weights, the derived vote-record
addresses are pairwise distinct, and every record sits at the address
derived from its own (proposal, voter) pair. -/
def TallyInv (s : GovState) : Prop :=
  s.proposal.yes_votes = yesWeightSum s.votes ∧
  s.proposal.no_votes = noWeightSum s.votes ∧
  (s.votes.map Prod.fst).Nodup ∧
  ∀ kv ∈ s.votes, kv.1.1 = s.proposal_key ∧ kv.2.proposal = s.proposal_key ∧
    kv.2.voter = kv.1.2

/-- A concrete asset record owned by identity 7, as created by
create_asset_token at time 50. -/
def cAsset : AssetToken :=
  create_asset_token 7 11 50 "Building" "BLD" "real_estate" "d" "u" 1000 100 10

/-- The record cAsset after its authority burned it at time 100. -/
def cAssetBurned : AssetToken :=
  { cAsset with is_burned := true, is_tradable := false, updated_at := 100 }

/-- The record cAsset with its income accumulator saturated at u64::MAX,
so that any further distribution overflows. -/
def cAssetMaxIncome : AssetToken :=
  { cAsset with total_income_distributed := u64Max }

/-- A concrete governance configuration. -/
def cGovConfig : GovernanceConfig :=
  { authority := 1
    min_voting_period := 10
    max_voting_period := 100
    min_quorum_votes := 100
    approval_threshold := 60
    min_proposal_balance := 5
    min_vote_balance := 1
    governance_active := true }

/-- A concrete proposal (quorum 100, threshold 60 percent) that has
accumulated 85 yes / 20 no vote weight and whose voting window is over at
time 150. -/
def cProposal : Proposal :=
  { title := "t"
    description := "d"
    proposer := 2
    is_active := true
    creation_timestamp := 0
    voting_ends_at := 100
    yes_votes := 85
    no_votes := 20
    executed := false
    proposal_type := .Text
    target_accounts := []
    execution_data := []
    min_voting_period := 10
    quorum_votes := 100
    approval_threshold_percentage := 60
    executed_at := 0
    executor := none }

/-- cProposal with only 70 yes / 20 no vote weight, short of quorum. -/
def cProposalBelowQuorum : Proposal :=
  { cProposal with yes_votes := 70 }

/-- cProposal after identity 9 executed it at time 150. -/
def cProposalExecuted : Proposal :=
  { cProposal with executed := true, is_active := false,
                   executed_at := 150, executor := some 9 }

/-- cProposal with the yes tally saturated at u64::MAX, so any further
yes vote overflows. -/
def cProposalMaxYes : Proposal :=
  { cProposal with yes_votes := u64Max }

/-- The proposal record produced by create_proposal under cGovConfig at
time 0 with voting_ends_at 50. -/
def wP0 : Proposal :=
  { title := "t"
    description := "d"
    proposer := 2
    is_active := true
    creation_timestamp := 0
    voting_ends_at := 50
    yes_votes := 0
    no_votes := 0
    executed := false
    proposal_type := .Text
    target_accounts := []
    execution_data := []
    min_voting_period := 10
    quorum_votes := 100
    approval_threshold_percentage := 60
    executed_at := 0
    executor := none }

/-- Freshly created governance storage for wP0 at proposal address 1. -/
def wS0 : GovState := { proposal_key := 1, proposal := wP0, votes := [] }

/-- wS0 after voter 4 cast a yes vote of weight 5 at time 20. -/
def wS1 : GovState :=
  { proposal_key := 1
    proposal := { wP0 with yes_votes := 5 }
    votes := [((1, 4),
      { proposal := 1, voter := 4, is_yes_vote := true,
        vote_weight := 5, timestamp := 20 })] }

/-- Governance storage whose proposal has a saturated yes tally. -/
def cGovStateMaxYes : GovState :=
  { proposal_key := 1, proposal := cProposalMaxYes, votes := [] }

/-- A concrete platform token record with authority 3 and no pending
authority. -/
def cRealToken : RealToken :=
  { name := "REAL"
    symbol := "REAL"
    uri := "u"
    total_supply := 1000000
    authority := 3
    is_initialized := true
    last_update_timestamp := 5
    mint := 12
    transfers_paused := false
    pending_authority := none
    fee_config := { transaction_fee_bps := 25, fee_recipient := 3, fees_enabled := true }
    distribution :=
      { community_allocation := 400000
        asset_reserve_allocation := 250000
        development_allocation := 200000
        liquidity_allocation := 100000
        team_allocation := 50000 } }

/-- cRealToken after authority 3 nominated 5 as pending authority at
time 10. -/
def cRealTokenPending : RealToken :=
  { cRealToken with pending_authority := some 5, last_update_timestamp := 10 }

/-- For a u64 value and a percentage of at most 100, the widened
computation never truncates at the final u64 cast. -/
theorem calculate_percentage_eq {n p : Nat} (hn : n ≤ u64Max) (hp : p ≤ 100) :
    calculate_percentage n p = n * p / 100 := by
  have h0 : n * p ≤ n * 100 := Nat.mul_le_mul le_rfl hp
  have h1 : n * p / 100 ≤ n := by
    have h2 : n * p / 100 ≤ n * 100 / 100 := Nat.div_le_div_right h0
    rwa [Nat.mul_div_cancel _ (by norm_num)] at h2
  unfold calculate_percentage
  exact Nat.mod_eq_of_lt (lt_of_le_of_lt (le_trans h1 hn) (by norm_num [u64Max]))

/-- The five truncated allocation buckets never exceed the supply. -/
theorem alloc_sum_le (n : Nat) :
    n * 40 / 100 + n * 25 / 100 + n * 20 / 100 + n * 10 / 100 + n * 5 / 100 ≤ n := by
  omega

/-- Claim C7: initialize requires non-empty name, non-empty symbol and a
positive total supply, else InvalidParameters; for every valid u64 supply
the five buckets equal floor(total_supply * pct / 100) for
pct in 40, 25, 20, 10, 5, computed in a widened type, and their sum is at
most total_supply. -/
theorem init_allocations (caller mintKey : Pubkey) (now : Int)
    (name symbol uri : String) (n : Nat) :
    ((name = "" ∨ symbol = "" ∨ n = 0) →
      initialize_real_token caller mintKey now name symbol uri n =
        .error .InvalidParameters) ∧
    (name ≠ "" → symbol ≠ "" → 0 < n → n ≤ u64Max →
      initialize_real_token caller mintKey now name symbol uri n = .ok
        { name := name, symbol := symbol, uri := uri, total_supply := n,
          authority := caller, is_initialized := true,
          last_update_timestamp := now, mint := mintKey,
          transfers_paused := false, pending_authority := none,
          fee_config := { transaction_fee_bps := 25, fee_recipient := caller,
                          fees_enabled := true },
          distribution := { community_allocation := n * 40 / 100,
                            asset_reserve_allocation := n * 25 / 100,
                            development_allocation := n * 20 / 100,
                            liquidity_allocation := n * 10 / 100,
                            team_allocation := n * 5 / 100 } } ∧
      n * 40 / 100 + n * 25 / 100 + n * 20 / 100 + n * 10 / 100 + n * 5 / 100 ≤ n) := by
  constructor
  · intro h
    unfold initialize_real_token
    split_ifs with h1 h2 h3
    · rfl
    · rfl
    · rfl
    · tauto
  · intro h1 h2 h3 h4
    unfold initialize_real_token
    rw [if_neg h1, if_neg h2, if_neg (Nat.pos_iff_ne_zero.mp h3)]
    refine ⟨?_, alloc_sum_le n⟩
    rw [calculate_percentage_eq h4 (by norm_num),
        calculate_percentage_eq h4 (by norm_num),
        calculate_percentage_eq h4 (by norm_num),
        calculate_percentage_eq h4 (by norm_num),
        calculate_percentage_eq h4 (by norm_num)]

/-- Witness for C7 at the concrete supply 1000000. -/
theorem init_allocations_witness :
    initialize_real_token 3 12 5 "REAL" "REAL" "u" 1000000 = .ok cRealToken ∧
    400000 + 250000 + 200000 + 100000 + 50000 ≤ 1000000 := by
  have h := (init_allocations 3 12 5 "REAL" "REAL" "u" 1000000).2
    (by decide) (by decide) (by norm_num) (by norm_num [u64Max])
  exact ⟨h.1, by norm_num⟩

/-- Claim C8: transfer_authority by the current authority records the
nominee as pending and leaves the authority field unchanged;
accept_authority fails with Unauthorized for any caller other than the
pending authority (in particular when none is pending), and the pending
authority itself becomes the authority, with pending cleared. -/
theorem two_step_authority (rt : RealToken) (caller newAuth : Pubkey)
    (now now2 : Int) :
    (caller = rt.authority →
      transfer_authority caller newAuth now rt =
        .ok { rt with pending_authority := some newAuth,
                      last_update_timestamp := now } ∧
      ({ rt with pending_authority := some newAuth,
                 last_update_timestamp := now } : RealToken).authority =
        rt.authority) ∧
    (rt.pending_authority ≠ some caller →
      accept_authority caller now2 rt = .error .Unauthorized) ∧
    (rt.pending_authority = some caller →
      accept_authority caller now2 rt =
        .ok { rt with authority := caller, pending_authority := none,
                      last_update_timestamp := now2 }) := by
  refine ⟨fun h => ⟨?_, rfl⟩, fun h => ?_, fun h => ?_⟩
  · unfold transfer_authority
    rw [if_pos h.symm]
  · unfold accept_authority
    rw [if_neg h]
  · unfold accept_authority
    rw [if_pos h]

/-- Witness for C8 at the concrete token record cRealToken. -/
theorem two_step_authority_witness :
    transfer_authority 3 5 10 cRealToken = .ok cRealTokenPending ∧
    accept_authority 5 20 cRealToken = .error .Unauthorized ∧
    accept_authority 5 20 cRealTokenPending =
      .ok { cRealTokenPending with authority := 5, pending_authority := none,
                                   last_update_timestamp := 20 } := by
  refine ⟨?_, ?_, ?_⟩
  · exact ((two_step_authority cRealToken 3 5 10 20).1 rfl).1
  · exact (two_step_authority cRealToken 5 0 10 20).2.1 (by decide)
  · exact (two_step_authority cRealTokenPending 5 0 10 20).2.2 rfl

/-- Claim C9: for the token authority, update_fee_config fails with
InvalidParameters exactly when transaction_fee_bps exceeds 1000, and on
success replaces fee_config wholesale and refreshes the timestamp,
leaving every other field unchanged. -/
theorem fee_config_cap (rt : RealToken) (caller : Pubkey) (now : Int)
    (bps : Nat) (recipient : Pubkey) (enabled : Bool)
    (hauth : caller = rt.authority) :
    (update_fee_config caller now bps recipient enabled rt =
        .error .InvalidParameters ↔ 1000 < bps) ∧
    (bps ≤ 1000 →
      update_fee_config caller now bps recipient enabled rt =
        .ok { rt with
                fee_config := { transaction_fee_bps := bps,
                                fee_recipient := recipient,
                                fees_enabled := enabled }
                last_update_timestamp := now }) := by
  unfold update_fee_config
  rw [if_pos hauth.symm]
  constructor
  · constructor
    · intro h
      by_contra hc
      rw [if_neg hc] at h
      exact Except.noConfusion h
    · intro h
      rw [if_pos h]
  · intro h
    rw [if_neg (not_lt.mpr h)]

/-- Witness for C9: fee 1001 is refused, fee 1000 is accepted, on the
concrete record cRealToken. -/
theorem fee_config_cap_witness :
    update_fee_config 3 30 1001 8 true cRealToken = .error .InvalidParameters ∧
    update_fee_config 3 30 1000 8 true cRealToken =
      .ok { cRealToken with
              fee_config := { transaction_fee_bps := 1000, fee_recipient := 8,
                              fees_enabled := true }
              last_update_timestamp := 30 } := by
  refine ⟨?_, ?_⟩
  · exact (fee_config_cap cRealToken 3 30 1001 8 true rfl).1.mpr (by norm_num)
  · exact (fee_config_cap cRealToken 3 30 1000 8 true rfl).2 (by norm_num)

/-- Claim C10: the GovernanceConfig fields governance_active and
min_proposal_balance are read by no governance operation: changing only
them changes nothing about create_proposal or vote_on_proposal, and
execute_proposal takes no configuration at all. -/
theorem governance_config_unused_fields (cfg : GovernanceConfig) (g : Bool)
    (m : Nat) (proposer : Pubkey) (now : Int) (title descr : String)
    (ends : Int) (voter : Pubkey) (now2 : Int) (b : Bool) (w : Nat)
    (s : GovState) (executorKey : Pubkey) (now3 : Int) :
    create_proposal proposer now title descr ends
        { cfg with governance_active := g, min_proposal_balance := m } =
      create_proposal proposer now title descr ends cfg ∧
    vote_on_proposal voter now2 b w
        { cfg with governance_active := g, min_proposal_balance := m } s =
      vote_on_proposal voter now2 b w cfg s ∧
    execute_proposal executorKey now3 s.proposal =
      execute_proposal executorKey now3 s.proposal :=
  ⟨rfl, rfl, rfl⟩

/-- Counterexample to C1 as stated: on the concrete asset cAsset, burn by
the authority succeeds, yet a subsequent toggle_tradability(true) by the
same authority also succeeds and sets is_tradable back to true on the
still-burned record — burn does not pin tradability. -/
theorem burn_pin_counterexample :
    cAsset.is_burned = false ∧
    burn_asset_token 7 100 cAsset = .ok cAssetBurned ∧
    cAssetBurned.authority = 7 ∧
    cAssetBurned.is_burned = true ∧
    cAssetBurned.is_tradable = false ∧
    toggle_tradability 7 200 true cAssetBurned =
      .ok { cAssetBurned with is_tradable := true, updated_at := 200 } ∧
    ({ cAssetBurned with is_tradable := true, updated_at := 200 } :
        AssetToken).is_burned = true ∧
    ({ cAssetBurned with is_tradable := true, updated_at := 200 } :
        AssetToken).is_tradable = true :=
  ⟨rfl, rfl, rfl, rfl, rfl, rfl, rfl, rfl⟩

/-- Claim C1 (amended): burn_asset_token by the authority on a
not-yet-burned asset sets is_burned and clears is_tradable; a second
burn_asset_token fails with AssetAlreadyBurned; and no operation ever
resets is_burned.  (The further assertion of the original claim that
is_tradable stays pinned false is refuted by burn_pin_counterexample:
toggle_tradability performs no burn check.) -/
theorem burn_terminal_amended (a : AssetToken) (now : Int) (op : AssetOp)
    (a2 : AssetToken) :
    (a.is_burned = false →
      burn_asset_token a.authority now a =
        .ok { a with is_burned := true, is_tradable := false,
                     updated_at := now }) ∧
    (a.is_burned = true →
      burn_asset_token a.authority now a = .error .AssetAlreadyBurned) ∧
    (a.is_burned = true → applyAssetOp op a = .ok a2 → a2.is_burned = true) := by
  refine ⟨fun h => ?_, fun h => ?_, fun h hop => ?_⟩
  · unfold burn_asset_token
    rw [if_pos rfl, if_neg (by simp [h])]
  · unfold burn_asset_token
    rw [if_pos rfl, if_pos h]
  · cases op with
    | updateValuation c n v sp =>
      simp only [applyAssetOp, update_asset_valuation] at hop
      split_ifs at hop
      cases hop; exact h
    | verify vk n =>
      simp only [applyAssetOp, verify_asset] at hop
      cases hop; exact h
    | toggle c n f =>
      simp only [applyAssetOp, toggle_tradability] at hop
      split_ifs at hop
      cases hop; exact h
    | burn c n =>
      simp only [applyAssetOp, burn_asset_token] at hop
      split_ifs at hop
    | distribute c n amt =>
      simp only [applyAssetOp, distribute_income_tx, distribute_income] at hop
      split_ifs at hop

/-- Witness for the amended C1 at concrete records. -/
theorem burn_terminal_amended_witness :
    burn_asset_token 7 100 cAsset =
      .ok { cAsset with is_burned := true, is_tradable := false,
                        updated_at := 100 } ∧
    burn_asset_token 7 300 cAssetBurned = .error .AssetAlreadyBurned ∧
    ({ cAssetBurned with is_tradable := true, updated_at := 200 } :
        AssetToken).is_burned = true := by
  refine ⟨?_, ?_, ?_⟩
  · exact (burn_terminal_amended cAsset 100 (.burn 7 100) cAsset).1 rfl
  · exact (burn_terminal_amended cAssetBurned 300 (.burn 7 300) cAsset).2.1 rfl
  · exact (burn_terminal_amended cAssetBurned 0 (.toggle 7 200 true)
      { cAssetBurned with is_tradable := true, updated_at := 200 }).2.2 rfl rfl

/-- Counterexample to C3 as stated: on the concrete proposal cProposal a
first execution succeeds, and the second execution attempt fails with
ProposalInactive — not with ProposalAlreadyExecuted — because execution
clears is_active and the is_active guard runs first. -/
theorem second_execute_counterexample :
    execute_proposal 9 150 cProposal = .ok (cProposalExecuted, true) ∧
    execute_proposal 9 160 cProposalExecuted = .error .ProposalInactive ∧
    RealStackError.ProposalInactive ≠ RealStackError.ProposalAlreadyExecuted := by
  refine ⟨?_, rfl, by decide⟩
  show execute_proposal 9 150 cProposal = .ok (cProposalExecuted, true)
  rfl

/-- Claim C3 (amended): execute_proposal before voting_ends_at on an
active proposal fails with VotingPeriodNotEnded; every successful call
sets executed, clears is_active, and records executed_at and the
executor, regardless of the approval outcome; and a second execution
attempt on the resulting record fails — with ProposalInactive, because
execution cleared is_active and that guard precedes the
ProposalAlreadyExecuted guard. -/
theorem execute_consumes_attempt_amended (p : Proposal)
    (executorKey executorKey2 : Pubkey) (now now2 : Int) (p2 : Proposal)
    (ap : Bool) :
    (p.is_active = true → now < p.voting_ends_at →
      execute_proposal executorKey now p = .error .VotingPeriodNotEnded) ∧
    (execute_proposal executorKey now p = .ok (p2, ap) →
      p2.executed = true ∧ p2.is_active = false ∧ p2.executed_at = now ∧
      p2.executor = some executorKey ∧
      execute_proposal executorKey2 now2 p2 = .error .ProposalInactive) := by
  constructor
  · intro hact hlt
    unfold execute_proposal
    rw [if_neg (by simp [hact]), if_pos hlt]
  · intro h
    unfold execute_proposal at h
    split_ifs at h with h1 h2 h3
    rcases hadd : checkedAddU64 p.yes_votes p.no_votes with - | total
    · rw [hadd] at h
      simp at h
    · rw [hadd] at h
      dsimp only at h
      split_ifs at h with h4 h5
      all_goals
        simp only [Except.ok.injEq, Prod.mk.injEq] at h
        obtain ⟨hp2, -⟩ := h
        subst hp2
        refine ⟨rfl, rfl, rfl, rfl, ?_⟩
        unfold execute_proposal
        rw [if_pos rfl]

/-- Witness for the amended C3 at the concrete proposal cProposal. -/
theorem execute_consumes_attempt_amended_witness :
    execute_proposal 9 50 cProposal = .error .VotingPeriodNotEnded ∧
    cProposalExecuted.executed = true ∧
    cProposalExecuted.is_active = false ∧
    execute_proposal 3 160 cProposalExecuted = .error .ProposalInactive := by
  have h2 := (execute_consumes_attempt_amended cProposal 9 3 150 160
    cProposalExecuted true).2 rfl
  exact ⟨(execute_consumes_attempt_amended cProposal 9 3 50 160
    cProposalExecuted true).1 rfl (by norm_num [cProposal]),
    h2.1, h2.2.1, h2.2.2.2.2⟩

/-- Claim C2: on an active, unexecuted proposal whose voting window is
over, execute_proposal adds the tallies with checked arithmetic
(MathOverflow past u64::MAX), fails with InvalidParameters below quorum,
and otherwise succeeds with approved equal to the truncated widened
percentage comparison (0 when the total is zero). -/
theorem execute_quorum_threshold (p : Proposal) (executorKey : Pubkey)
    (now : Int) (hact : p.is_active = true) (hend : p.voting_ends_at ≤ now)
    (hexe : p.executed = false) :
    (u64Max < p.yes_votes + p.no_votes →
      execute_proposal executorKey now p = .error .MathOverflow) ∧
    (p.yes_votes + p.no_votes ≤ u64Max →
      p.yes_votes + p.no_votes < p.quorum_votes →
      execute_proposal executorKey now p = .error .InvalidParameters) ∧
    (p.yes_votes + p.no_votes ≤ u64Max →
      p.quorum_votes ≤ p.yes_votes + p.no_votes →
      execute_proposal executorKey now p =
        .ok ({ p with executed := true, is_active := false,
                      executed_at := now, executor := some executorKey },
             decide (p.approval_threshold_percentage ≤
               if 0 < p.yes_votes + p.no_votes then
                 p.yes_votes * 100 / (p.yes_votes + p.no_votes) else 0))) := by
  unfold execute_proposal checkedAddU64
  rw [if_neg (by simp [hact]), if_neg (not_lt.mpr hend), if_neg (by simp [hexe])]
  refine ⟨fun hov => ?_, fun hle hq => ?_, fun hle hq => ?_⟩
  · rw [if_neg (not_le.mpr hov)]
  · rw [if_pos hle]
    dsimp only
    rw [if_pos hq]
  · rw [if_pos hle]
    dsimp only
    rw [if_neg (not_lt.mpr hq)]

/-- Witness for C2: the two concrete scenarios of the spec (quorum 100,
threshold 60): 70 yes / 20 no fails quorum with InvalidParameters, and
85 yes / 20 no executes approved with percentage 80. -/
theorem execute_quorum_threshold_witness :
    execute_proposal 9 150 cProposalBelowQuorum = .error .InvalidParameters ∧
    execute_proposal 9 150 cProposal = .ok (cProposalExecuted, true) ∧
    cProposal.yes_votes * 100 / (cProposal.yes_votes + cProposal.no_votes) = 80 := by
  refine ⟨?_, ?_, rfl⟩
  · exact (execute_quorum_threshold cProposalBelowQuorum 9 150 rfl
      (by norm_num [cProposalBelowQuorum, cProposal]) rfl).2.1
      (by decide) (by decide)
  · exact (execute_quorum_threshold cProposal 9 150 rfl
      (by norm_num [cProposal]) rfl).2.2 (by decide) (by decide)

/-- Claim C5 part of the development: the committed effect of a failing
distribute_income or vote_on_proposal transaction is the unchanged
original storage, and the overflow cases surface MathOverflow. -/
theorem atomic_failure (caller : Pubkey) (now : Int) (amount : Nat)
    (a : AssetToken) (voter : Pubkey) (now2 : Int) (b : Bool) (w : Nat)
    (cfg : GovernanceConfig) (s : GovState) (e : RealStackError)
    (te : TxError) :
    ((distribute_income_commit caller now amount a).2 = some e →
      (distribute_income_commit caller now amount a).1 = a) ∧
    (caller = a.authority → a.is_burned = false →
      u64Max < a.total_income_distributed + amount →
      distribute_income_commit caller now amount a = (a, some .MathOverflow)) ∧
    ((vote_on_proposal_commit voter now2 b w cfg s).2 = some te →
      (vote_on_proposal_commit voter now2 b w cfg s).1 = s) ∧
    (s.proposal.is_active = true → now2 < s.proposal.voting_ends_at →
      cfg.min_vote_balance ≤ w →
      lookupVote (s.proposal_key, voter) s.votes = none →
      b = true → u64Max < s.proposal.yes_votes + w →
      vote_on_proposal_commit voter now2 b w cfg s =
        (s, some (.prog .MathOverflow))) := by
  refine ⟨fun hsome => ?_, fun h1 h2 h3 => ?_, fun hsome => ?_,
    fun h1 h2 h3 h4 h5 h6 => ?_⟩
  · unfold distribute_income_commit at hsome ⊢
    cases hres : distribute_income caller now amount a with
    | ok a2 => rw [hres] at hsome; simp at hsome
    | error ea => obtain ⟨e2, a3⟩ := ea; rfl
  · have h4 : ¬(a.total_income_distributed + amount ≤ u64Max) := not_le.mpr h3
    simp [distribute_income_commit, distribute_income, checkedAddU64, h1, h2, h4]
  · unfold vote_on_proposal_commit at hsome ⊢
    cases hres : vote_on_proposal voter now2 b w cfg s with
    | ok s2 => rw [hres] at hsome; simp at hsome
    | error e2 => rfl
  · subst h5
    have h7 : ¬(s.proposal.yes_votes + w ≤ u64Max) := not_le.mpr h6
    simp [vote_on_proposal_commit, vote_on_proposal, vote_on_proposal_body,
      checkedAddU64, h1, h2, not_le.mpr h2, not_lt.mpr h3, h4, h7]

/-- Witness for C5: a saturated income accumulator and a saturated yes
tally both overflow and commit nothing. -/
theorem atomic_failure_witness :
    distribute_income_commit 7 60 1 cAssetMaxIncome =
      (cAssetMaxIncome, some .MathOverflow) ∧
    vote_on_proposal_commit 4 50 true 1 cGovConfig cGovStateMaxYes =
      (cGovStateMaxYes, some (.prog .MathOverflow)) := by
  constructor
  · exact (atomic_failure 7 60 1 cAssetMaxIncome 4 50 true 1 cGovConfig
      cGovStateMaxYes .MathOverflow .accountInUse).2.1 rfl rfl
      (Nat.lt_succ_self u64Max)
  · exact (atomic_failure 7 60 1 cAssetMaxIncome 4 50 true 1 cGovConfig
      cGovStateMaxYes .MathOverflow .accountInUse).2.2.2 rfl (by norm_num
      [cGovStateMaxYes, cProposalMaxYes, cProposal]) (by norm_num [cGovConfig])
      rfl rfl (Nat.lt_succ_self u64Max)

/-- Success characterization of a distribute_income transaction. -/
theorem distribute_income_tx_ok {caller : Pubkey} {now : Int} {amount : Nat}
    {a a2 : AssetToken} (h : distribute_income_tx caller now amount a = .ok a2) :
    a2 = { a with last_income_distribution := now,
                  total_income_distributed := a.total_income_distributed + amount,
                  updated_at := now } ∧
    caller = a.authority ∧ a.is_burned = false ∧
    a.total_income_distributed + amount ≤ u64Max := by
  unfold distribute_income_tx distribute_income checkedAddU64 at h
  by_cases h1 : caller = a.authority
  · by_cases h2 : a.is_burned
    · rw [if_pos h1, if_pos h2] at h
      simp at h
    · by_cases h3 : a.total_income_distributed + amount ≤ u64Max
      · rw [if_pos h1, if_neg h2] at h
        dsimp only at h
        rw [if_pos h3] at h
        dsimp only at h
        simp only [Except.ok.injEq] at h
        exact ⟨h.symm, h1, Bool.eq_false_iff.mpr h2, h3⟩
      · rw [if_pos h1, if_neg h2] at h
        dsimp only at h
        rw [if_neg h3] at h
        simp at h
  · rw [if_neg h1] at h
    simp at h

/-- The committed record of a distribute_income transaction, expressed
through the surfaced transaction result. -/
theorem distribute_commit_fst (caller : Pubkey) (now : Int) (amount : Nat)
    (a : AssetToken) :
    (distribute_income_commit caller now amount a).1 =
      (match distribute_income_tx caller now amount a with
        | .ok a2 => a2
        | .error _ => a) := by
  unfold distribute_income_commit distribute_income_tx
  cases hres : distribute_income caller now amount a with
  | ok a2 => rfl
  | error ea => obtain ⟨e2, a3⟩ := ea; rfl

/-- Over any sequence of distribute_income transactions the income
accumulator grows by exactly the amounts of the successful calls. -/
theorem runDistributions_total (l : List (Pubkey × Int × Nat)) (a : AssetToken) :
    (runDistributions a l).total_income_distributed =
      a.total_income_distributed + (appliedAmounts a l).sum := by
  induction l generalizing a with
  | nil => simp [runDistributions, appliedAmounts]
  | cons hd tl ih =>
    obtain ⟨c, t, amt⟩ := hd
    simp only [runDistributions, appliedAmounts, distribute_commit_fst]
    cases hres : distribute_income_tx c t amt a with
    | ok a2 =>
      obtain ⟨ha2, -, -, -⟩ := distribute_income_tx_ok hres
      subst ha2
      rw [ih]
      simp only [List.sum_cons]
      omega
    | error e2 => exact ih a

/-- Claim C6: distribute_income is authority-gated, fails with AssetBurned
on a burned asset and MathOverflow past u64::MAX, and otherwise adds the
amount to total_income_distributed and stamps both timestamps; over any
call sequence the accumulator is monotone and equals the sum of the
successfully applied amounts. -/
theorem distribute_income_accounting (a : AssetToken) (caller : Pubkey)
    (now : Int) (amount : Nat) (l : List (Pubkey × Int × Nat)) :
    (caller ≠ a.authority →
      distribute_income_tx caller now amount a = .error .Unauthorized) ∧
    (caller = a.authority → a.is_burned = true →
      distribute_income_tx caller now amount a = .error .AssetBurned) ∧
    (caller = a.authority → a.is_burned = false →
      u64Max < a.total_income_distributed + amount →
      distribute_income_tx caller now amount a = .error .MathOverflow) ∧
    (caller = a.authority → a.is_burned = false →
      a.total_income_distributed + amount ≤ u64Max →
      distribute_income_tx caller now amount a =
        .ok { a with last_income_distribution := now,
                     total_income_distributed :=
                       a.total_income_distributed + amount,
                     updated_at := now }) ∧
    a.total_income_distributed ≤
      (runDistributions a l).total_income_distributed ∧
    (runDistributions a l).total_income_distributed =
      a.total_income_distributed + (appliedAmounts a l).sum := by
  refine ⟨fun h1 => ?_, fun h1 h2 => ?_, fun h1 h2 h3 => ?_, fun h1 h2 h3 => ?_,
    ?_, runDistributions_total l a⟩
  · unfold distribute_income_tx distribute_income
    rw [if_neg h1]
  · unfold distribute_income_tx distribute_income
    rw [if_pos h1, if_pos h2]
  · unfold distribute_income_tx distribute_income checkedAddU64
    rw [if_pos h1, if_neg (by simp [h2])]
    dsimp only
    rw [if_neg (not_le.mpr h3)]
  · unfold distribute_income_tx distribute_income checkedAddU64
    rw [if_pos h1, if_neg (by simp [h2])]
    dsimp only
    rw [if_pos h3]
  · rw [runDistributions_total l a]
    exact Nat.le_add_right _ _

/-- Witness for C6: a successful distribution of 40 on cAsset, and a
three-call sequence whose middle call is unauthorized, accumulating
exactly 40 + 10 = 50. -/
theorem distribute_income_accounting_witness :
    distribute_income_tx 7 60 40 cAsset =
      .ok { cAsset with last_income_distribution := 60,
                        total_income_distributed := 40, updated_at := 60 } ∧
    (runDistributions cAsset
        [(7, 60, 40), (8, 61, 5), (7, 62, 10)]).total_income_distributed =
      cAsset.total_income_distributed +
        (appliedAmounts cAsset [(7, 60, 40), (8, 61, 5), (7, 62, 10)]).sum ∧
    (appliedAmounts cAsset [(7, 60, 40), (8, 61, 5), (7, 62, 10)]).sum = 50 := by
  refine ⟨?_, ?_, by decide⟩
  · exact (distribute_income_accounting cAsset 7 60 40 []).2.2.2.1 rfl rfl
      (by decide)
  · exact (distribute_income_accounting cAsset 7 60 40
      [(7, 60, 40), (8, 61, 5), (7, 62, 10)]).2.2.2.2.2

/-- lookupVote misses exactly the keys absent from the store. -/
theorem lookupVote_eq_none_iff {k : Pubkey × Pubkey}
    {l : List ((Pubkey × Pubkey) × VoteRecord)} :
    lookupVote k l = none ↔ k ∉ l.map Prod.fst := by
  induction l with
  | nil => simp [lookupVote]
  | cons hd tl ih =>
    obtain ⟨k2, v⟩ := hd
    by_cases h : k2 = k
    · subst h
      simp [lookupVote]
    · simp [lookupVote, h, Ne.symm h, ih]

/-- Success characterization of the vote_on_proposal instruction body. -/
theorem vote_body_ok {pk voter : Pubkey} {now : Int} {b : Bool} {w : Nat}
    {cfg : GovernanceConfig} {p p2 : Proposal} {vr0 vr : VoteRecord}
    (h : vote_on_proposal_body pk voter now b w cfg p vr0 = .ok (p2, vr)) :
    vr = { proposal := pk, voter := voter, is_yes_vote := b, vote_weight := w,
           timestamp := now } ∧
    p.is_active = true ∧ now < p.voting_ends_at ∧ cfg.min_vote_balance ≤ w ∧
    ((b = true ∧ p.yes_votes + w ≤ u64Max ∧
        p2 = { p with yes_votes := p.yes_votes + w }) ∨
      (b = false ∧ p.no_votes + w ≤ u64Max ∧
        p2 = { p with no_votes := p.no_votes + w })) := by
  unfold vote_on_proposal_body checkedAddU64 at h
  by_cases h1 : p.is_active = false
  · rw [if_pos h1] at h; simp at h
  · rw [if_neg h1] at h
    by_cases h2 : p.voting_ends_at ≤ now
    · rw [if_pos h2] at h; simp at h
    · rw [if_neg h2] at h
      by_cases h3 : w < cfg.min_vote_balance
      · rw [if_pos h3] at h; simp at h
      · rw [if_neg h3] at h
        dsimp only at h
        cases b with
        | true =>
          rw [if_pos rfl] at h
          by_cases h5 : p.yes_votes + w ≤ u64Max
          · rw [if_pos h5] at h
            dsimp only at h
            simp only [Except.ok.injEq, Prod.mk.injEq] at h
            obtain ⟨hp, hv⟩ := h
            exact ⟨hv.symm, by simpa using h1, not_le.mp h2, not_lt.mp h3,
              Or.inl ⟨rfl, h5, hp.symm⟩⟩
          · rw [if_neg h5] at h
            simp at h
        | false =>
          rw [if_neg (by decide)] at h
          by_cases h5 : p.no_votes + w ≤ u64Max
          · rw [if_pos h5] at h
            dsimp only at h
            simp only [Except.ok.injEq, Prod.mk.injEq] at h
            obtain ⟨hp, hv⟩ := h
            exact ⟨hv.symm, by simpa using h1, not_le.mp h2, not_lt.mp h3,
              Or.inr ⟨rfl, h5, hp.symm⟩⟩
          · rw [if_neg h5] at h
            simp at h

/-- Success characterization of a vote_on_proposal transaction on the
governance storage. -/
theorem vote_ok_characterization {voter : Pubkey} {now : Int} {b : Bool}
    {w : Nat} {cfg : GovernanceConfig} {s s2 : GovState}
    (h : vote_on_proposal voter now b w cfg s = .ok s2) :
    lookupVote (s.proposal_key, voter) s.votes = none ∧
    s2.proposal_key = s.proposal_key ∧
    s2.votes = ((s.proposal_key, voter),
      { proposal := s.proposal_key, voter := voter, is_yes_vote := b,
        vote_weight := w, timestamp := now }) :: s.votes ∧
    ((b = true ∧
        s2.proposal =
          { s.proposal with yes_votes := s.proposal.yes_votes + w }) ∨
      (b = false ∧
        s2.proposal =
          { s.proposal with no_votes := s.proposal.no_votes + w })) := by
  unfold vote_on_proposal at h
  by_cases hl : (lookupVote (s.proposal_key, voter) s.votes).isSome
  · rw [if_pos hl] at h
    exact absurd h (by simp)
  · rw [if_neg hl] at h
    cases hb : vote_on_proposal_body s.proposal_key voter now b w cfg
        s.proposal freshVoteRecord with
    | error ev =>
      obtain ⟨e1, p1, v1⟩ := ev
      rw [hb] at h
      simp at h
    | ok pv =>
      obtain ⟨p2, vr⟩ := pv
      rw [hb] at h
      dsimp only at h
      simp only [Except.ok.injEq] at h
      subst h
      obtain ⟨hvr, -, -, -, hcase⟩ := vote_body_ok hb
      subst hvr
      refine ⟨Option.not_isSome_iff_eq_none.mp hl, rfl, rfl, ?_⟩
      rcases hcase with ⟨ha, -, hc⟩ | ⟨ha, -, hc⟩
      · exact Or.inl ⟨ha, hc⟩
      · exact Or.inr ⟨ha, hc⟩

/-- Successful execution rewrites exactly the four lifecycle fields of the
proposal. -/
theorem execute_ok_shape {executorKey : Pubkey} {now : Int} {p p2 : Proposal}
    {ap : Bool} (h : execute_proposal executorKey now p = .ok (p2, ap)) :
    p2 = { p with executed := true, is_active := false, executed_at := now,
                  executor := some executorKey } := by
  unfold execute_proposal at h
  split_ifs at h with h1 h2 h3
  rcases hadd : checkedAddU64 p.yes_votes p.no_votes with - | total
  · rw [hadd] at h; simp at h
  · rw [hadd] at h
    dsimp only at h
    split_ifs at h with h4 h5
    all_goals
      simp only [Except.ok.injEq, Prod.mk.injEq] at h
      exact h.1.symm

/-- One committed governance transaction preserves the tally/uniqueness
invariant. -/
theorem govStep_preserves_tallyInv {s s2 : GovState} (hstep : GovStep s s2)
    (hI : TallyInv s) : TallyInv s2 := by
  obtain ⟨hyes, hno, hnd, hloc⟩ := hI
  cases hstep with
  | vote voter now b w cfg h =>
    obtain ⟨hlook, hkey, hvotes, hcase⟩ := vote_ok_characterization h
    have hnotin : (s.proposal_key, voter) ∉ s.votes.map Prod.fst :=
      lookupVote_eq_none_iff.mp hlook
    rcases hcase with ⟨hb, hp⟩ | ⟨hb, hp⟩ <;> subst hb
    · refine ⟨?_, ?_, ?_, ?_⟩
      · rw [hp, hvotes]
        simp [yesWeightSum, hyes]
        omega
      · rw [hp, hvotes]
        simp [noWeightSum, hno]
      · rw [hvotes]
        simp [List.nodup_cons, hnotin, hnd]
      · rw [hvotes, hkey]
        intro kv hkv
        rcases List.mem_cons.mp hkv with hkv | hkv
        · subst hkv
          exact ⟨rfl, rfl, rfl⟩
        · exact hloc kv hkv
    · refine ⟨?_, ?_, ?_, ?_⟩
      · rw [hp, hvotes]
        simp [yesWeightSum, hyes]
      · rw [hp, hvotes]
        simp [noWeightSum, hno]
        omega
      · rw [hvotes]
        simp [List.nodup_cons, hnotin, hnd]
      · rw [hvotes, hkey]
        intro kv hkv
        rcases List.mem_cons.mp hkv with hkv | hkv
        · subst hkv
          exact ⟨rfl, rfl, rfl⟩
        · exact hloc kv hkv
  | exec executorKey now h =>
    have hp2 := execute_ok_shape h
    subst hp2
    exact ⟨hyes, hno, hnd, hloc⟩

/-- The tally/uniqueness invariant holds in every reachable governance
storage state. -/
theorem govReachable_tallyInv {s0 s : GovState} (h0 : TallyInv s0)
    (h : GovReachable s0 s) : TallyInv s := by
  unfold GovReachable at h
  induction h with
  | refl => exact h0
  | tail hsteps hstep ih => exact govStep_preserves_tallyInv hstep ih

/-- A freshly created proposal starts with zero tallies. -/
theorem create_proposal_ok_shape {proposer : Pubkey} {now : Int}
    {title descr : String} {ends : Int} {cfg : GovernanceConfig}
    {p0 : Proposal}
    (h : create_proposal proposer now title descr ends cfg = .ok p0) :
    p0.yes_votes = 0 ∧ p0.no_votes = 0 := by
  unfold create_proposal at h
  split_ifs at h with h1 h2
  rcases hm1 : checkedAddI64 now cfg.min_voting_period with - | m1
  · rw [hm1] at h; simp at h
  · rw [hm1] at h
    dsimp only at h
    rcases hm2 : checkedAddI64 now cfg.max_voting_period with - | m2
    · rw [hm2] at h; simp at h
    · rw [hm2] at h
      dsimp only at h
      split_ifs at h with h3 h4
      simp only [Except.ok.injEq] at h
      subst h
      exact ⟨rfl, rfl⟩

/-- Claim C4: starting from any freshly created proposal, in every
reachable governance storage state the derived vote-record addresses are
pairwise distinct (at most one VoteRecord per (proposal, voter) pair,
each stored at its own derived address), the tallies equal the sums of
the recorded vote weights (exactly one vote per voter), and a second
vote_on_proposal for a pair that already has a record is rejected by the
address collision, not overwritten. -/
theorem single_vote_per_pair (proposer : Pubkey) (now0 : Int)
    (title descr : String) (ends : Int) (cfg0 : GovernanceConfig)
    (p0 : Proposal) (k : Pubkey) (s : GovState)
    (hcreate : create_proposal proposer now0 title descr ends cfg0 = .ok p0)
    (hreach : GovReachable
      { proposal_key := k, proposal := p0, votes := [] } s) :
    (s.votes.map Prod.fst).Nodup ∧
    (∀ kv ∈ s.votes, kv.1.1 = s.proposal_key ∧
      kv.2.proposal = s.proposal_key ∧ kv.2.voter = kv.1.2) ∧
    s.proposal.yes_votes = yesWeightSum s.votes ∧
    s.proposal.no_votes = noWeightSum s.votes ∧
    (∀ voter now b w cfg,
      (lookupVote (s.proposal_key, voter) s.votes).isSome →
      vote_on_proposal voter now b w cfg s = .error .accountInUse) := by
  obtain ⟨hy0, hn0⟩ := create_proposal_ok_shape hcreate
  have h0 : TallyInv { proposal_key := k, proposal := p0, votes := [] } := by
    refine ⟨by simpa [yesWeightSum] using hy0,
      by simpa [noWeightSum] using hn0, by simp, by simp⟩
  obtain ⟨hyes, hno, hnd, hloc⟩ := govReachable_tallyInv h0 hreach
  refine ⟨hnd, hloc, hyes, hno, fun voter now b w cfg hsome => ?_⟩
  unfold vote_on_proposal
  rw [if_pos hsome]

/-- Witness for C4: on the freshly created storage wS0, the vote of voter 4
commits to wS1, a repeated vote by voter 4 is rejected by the address
collision, and the invariant holds in wS1. -/
theorem single_vote_per_pair_witness :
    vote_on_proposal 4 20 true 5 cGovConfig wS0 = .ok wS1 ∧
    vote_on_proposal 4 21 true 5 cGovConfig wS1 = .error .accountInUse ∧
    (wS1.votes.map Prod.fst).Nodup ∧
    wS1.proposal.yes_votes = yesWeightSum wS1.votes := by
  have hreach : GovReachable wS0 wS1 :=
    Relation.ReflTransGen.single
      (GovStep.vote 4 20 true 5 cGovConfig (by rfl))
  have h := single_vote_per_pair 2 0 "t" "d" 50 cGovConfig wP0 1 wS1 rfl hreach
  exact ⟨by rfl, h.2.2.2.2 4 21 true 5 cGovConfig (by rfl), h.1, h.2.2.1⟩

end RealStack
